import Mathlib

/-!
Verification of `examples/basic_example_1/__main__.py` from the
`biomech-inverse` repository.

The script is a driver: it fabricates synthetic measurements for a
uniaxial-tension box problem, builds a Neo-Hookean energy density and a
misfit cost functional symbolically, and hands everything to an external
inverse solver.  The development below shallowly embeds the script:

* numeric configuration constants and the fabricated measurement arrays
  become exact rational values (`np.linspace` is embedded as `linspace`,
  and in-bounds Python list indexing as `List.getD`);
* the mutable measurement `Expression` objects become an explicit state
  record threaded through `measurement_setter`;
* the symbolic (UFL) tensor expressions built by the script become a deep
  syntax tree `UFLExpr`, and the integral forms become `Form`, with a
  linear evaluation `evalForm` giving semantics to sums of forms;
* the cost-formulation `if/elif/else` block becomes a total function into
  `Except`, the error case standing for the `raise ValueError`;
* mesh and Dirichlet-boundary-condition construction become records, and
  the `CompiledSubDomain` strings become predicates on points;
* the sequence of attribute/method accesses the script makes on the
  `invsolve` objects is transcribed as a list of names.
-/

namespace BasicExample1

/-! ### Problem parameters (lines 45-70) -/

/-- Line 45: `FORCE_COST_FORMULATION_METHOD = "cost"`. -/
def FORCE_COST_FORMULATION_METHOD : String := "cost"

/-- Line 48: `NUM_OBSERVATIONS = 4`. -/
def NUM_OBSERVATIONS : ℕ := 4

/-- Line 50: `SMALL_DISPLACEMENTS = True`. -/
def SMALL_DISPLACEMENTS : Bool := true

/-! ### Fabricated measurements (lines 73-117) -/

/-- Line 76: box problem domain `W, L, H = 2.0, 1.0, 1.0`. -/
def W : ℚ := 2

/-- Line 76. -/
def L : ℚ := 1

/-- Line 76. -/
def H : ℚ := 1

/-- Lines 79-82: maximum horizontal displacement of the right face,
`1e-5` in the small-displacement case and `1e-1` otherwise.  The branch
on the configuration flag `SMALL_DISPLACEMENTS` is kept as a parameter so
both configurations can be reasoned about. -/
def uxD_max (small : Bool) : ℚ := if small then 1 / 100000 else 1 / 10

/-- Line 85: `E_target, nu_target = 1.0, 0.3`. -/
def E_target : ℚ := 1

/-- Line 85. -/
def nu_target : ℚ := 3 / 10

/-- Line 93: engineering strain `ex_max = uxD_max / W`. -/
def ex_max (small : Bool) : ℚ := uxD_max small / W

/-- Line 94: right-face traction `Tx_max = E_target * ex_max`. -/
def Tx_max (small : Bool) : ℚ := E_target * ex_max small

/-- `np.linspace start stop num` (endpoint included): sample `i` is
`start + (stop - start) * i / (num - 1)`. -/
def linspace (start stop : ℚ) (num : ℕ) : List ℚ :=
  (List.range num).map fun i : ℕ =>
    start + (stop - start) * (i : ℚ) / ((num - 1 : ℕ) : ℚ)

/-- Line 96: `measurements_Tx = np.linspace(0, Tx_max, NUM_OBSERVATIONS+1)`. -/
def measurements_Tx (small : Bool) : List ℚ :=
  linspace 0 (Tx_max small) (NUM_OBSERVATIONS + 1)

/-- Line 97: `measurements_uxD = np.linspace(0, uxD_max, NUM_OBSERVATIONS+1)`. -/
def measurements_uxD (small : Bool) : List ℚ :=
  linspace 0 (uxD_max small) (NUM_OBSERVATIONS + 1)

/-- The mutable numeric attributes of the three measurement `Expression`
objects (lines 100-108): `T_msr.value_x`, `u_msr.ex`, `u_msr.nu` and
`uxD_msr.value`. -/
structure MeasurementState where
  T_msr_value_x : ℚ
  u_msr_ex : ℚ
  u_msr_nu : ℚ
  uxD_msr_value : ℚ
  deriving DecidableEq

/-- Lines 110-114: `measurement_setter(i)` assigns
`T_msr.value_x = measurements_Tx[i]`, `u_msr.ex = measurements_uxD[i] / W`
and `uxD_msr.value = measurements_uxD[i]`; the attribute `u_msr.nu` is not
touched. -/
def measurement_setter (small : Bool) (i : ℕ) (s : MeasurementState) :
    MeasurementState :=
  MeasurementState.mk ((measurements_Tx small).getD i 0)
    (((measurements_uxD small).getD i 0) / W) s.u_msr_nu
    ((measurements_uxD small).getD i 0)

/-- Line 116: `using_subdims_u_msr = [0, 1]`. -/
def using_subdims_u_msr : List ℕ := [0, 1]

/-- Line 117: `using_subdims_T_msr = [0]`. -/
def using_subdims_T_msr : List ℕ := [0]

/-- Line 272: `observation_times = range(1, NUM_OBSERVATIONS+1)`. -/
def observation_times : List ℕ := List.range' 1 NUM_OBSERVATIONS

/-! ### Theorems about the fabricated measurements -/

/-- Evaluation of `measurements_Tx` to a literal list in the
small-displacement and large-displacement configurations. -/
theorem measurements_Tx_eval : ∀ small : Bool,
    measurements_Tx small =
      cond small
        [0, 1 / 800000, 1 / 400000, 3 / 800000, 1 / 200000]
        [0, 1 / 80, 1 / 40, 3 / 80, 1 / 20] := by
  intro small
  cases small <;>
    · simp [measurements_Tx, linspace, NUM_OBSERVATIONS, Tx_max, ex_max,
        uxD_max, E_target, W, List.range_succ] <;> norm_num

/-- Evaluation of `measurements_uxD` to a literal list in the
small-displacement and large-displacement configurations. -/
theorem measurements_uxD_eval : ∀ small : Bool,
    measurements_uxD small =
      cond small
        [0, 1 / 400000, 1 / 200000, 3 / 400000, 1 / 100000]
        [0, 1 / 40, 1 / 20, 3 / 40, 1 / 10] := by
  intro small
  cases small <;>
    · simp [measurements_uxD, linspace, NUM_OBSERVATIONS, uxD_max,
        List.range_succ] <;> norm_num

/-- C3: both fabricated measurement sequences have `NUM_OBSERVATIONS + 1`
entries, evenly spaced from `0` to `Tx_max` resp. `uxD_max` (entry `i` is
`max * i / NUM_OBSERVATIONS`), with `Tx_max = E_target * (uxD_max / W)`;
and `measurement_setter i` sets `T_msr.value_x` to `measurements_Tx[i]`,
`u_msr.ex` to `measurements_uxD[i] / W` and `uxD_msr.value` to
`measurements_uxD[i]`, leaving the remaining attribute `u_msr.nu`
unchanged. -/
theorem fabricated_measurements_spec : ∀ small : Bool,
    (measurements_Tx small).length = NUM_OBSERVATIONS + 1 ∧
    (measurements_uxD small).length = NUM_OBSERVATIONS + 1 ∧
    Tx_max small = E_target * (uxD_max small / W) ∧
    ∀ i : ℕ, i ≤ NUM_OBSERVATIONS →
      ((measurements_Tx small).getD i 0 =
        Tx_max small * (i : ℚ) / (NUM_OBSERVATIONS : ℚ)) ∧
      ((measurements_uxD small).getD i 0 =
        uxD_max small * (i : ℚ) / (NUM_OBSERVATIONS : ℚ)) ∧
      ∀ s : MeasurementState,
        measurement_setter small i s =
          MeasurementState.mk ((measurements_Tx small).getD i 0)
            (((measurements_uxD small).getD i 0) / W) s.u_msr_nu
            ((measurements_uxD small).getD i 0) := by
  intro small
  refine ⟨?_, ?_, rfl, ?_⟩
  · rw [measurements_Tx, linspace, List.length_map, List.length_range]
  · rw [measurements_uxD, linspace, List.length_map, List.length_range]
  intro i hi
  have hi4 : i ≤ 4 := hi
  refine ⟨?_, ?_, fun s => rfl⟩ <;>
    · cases small <;> interval_cases i <;>
        norm_num [measurements_Tx_eval, measurements_uxD_eval, List.getD,
          NUM_OBSERVATIONS, Tx_max, ex_max, uxD_max, E_target, W]

/-- C3 witness: instantiation at the configured small-displacement case,
index 2. -/
theorem fabricated_measurements_spec_witness :
    (2 ≤ NUM_OBSERVATIONS) ∧
      (measurements_Tx true).getD 2 0 =
        Tx_max true * (2 : ℚ) / (NUM_OBSERVATIONS : ℚ) :=
  ⟨by decide, ((fabricated_measurements_spec true).2.2.2 2 (by decide)).1⟩

/-- C8: after `measurement_setter i`, the fabricated data satisfies the
target linear-elastic law exactly: `T_msr.value_x = E_target * u_msr.ex`
and `uxD_msr.value = W * u_msr.ex`. -/
theorem measurements_linear_elastic_consistency :
    ∀ (small : Bool) (i : ℕ), i ≤ NUM_OBSERVATIONS →
      ∀ s : MeasurementState,
        (measurement_setter small i s).T_msr_value_x =
          E_target * (measurement_setter small i s).u_msr_ex ∧
        (measurement_setter small i s).uxD_msr_value =
          W * (measurement_setter small i s).u_msr_ex := by
  intro small i hi s
  have hi4 : i ≤ 4 := hi
  unfold measurement_setter
  refine ⟨?_, ?_⟩ <;>
    · cases small <;> interval_cases i <;>
        norm_num [measurements_Tx_eval, measurements_uxD_eval, List.getD,
          NUM_OBSERVATIONS, Tx_max, ex_max, uxD_max, E_target, W]

/-- C8 witness: instantiation in the large-displacement configuration at
index 4. -/
theorem measurements_linear_elastic_consistency_witness :
    (4 ≤ NUM_OBSERVATIONS) ∧
      (measurement_setter false 4 (MeasurementState.mk 0 0 0 0)).T_msr_value_x =
        E_target *
          (measurement_setter false 4 (MeasurementState.mk 0 0 0 0)).u_msr_ex :=
  ⟨by decide,
    (measurements_linear_elastic_consistency false 4 (by decide)
      (MeasurementState.mk 0 0 0 0)).1⟩

/-- C9: `observation_times` is `range(1, NUM_OBSERVATIONS+1)`, i.e.
`[1, 2, 3, 4]`: it has exactly `NUM_OBSERVATIONS` elements, every element
is a valid index into both measurement arrays (of length
`NUM_OBSERVATIONS + 1` in either configuration), and the zero-load index
`0` is not an observation time. -/
theorem observation_times_safety :
    observation_times = [1, 2, 3, 4] ∧
    observation_times.length = NUM_OBSERVATIONS ∧
    (∀ small : Bool,
      (measurements_Tx small).length = NUM_OBSERVATIONS + 1 ∧
      (measurements_uxD small).length = NUM_OBSERVATIONS + 1) ∧
    observation_times.all
      (fun t => decide (t < NUM_OBSERVATIONS + 1)) = true ∧
    0 ∉ observation_times := by
  refine ⟨by decide, by decide, ?_, by decide, by decide⟩
  intro small
  constructor
  · rw [measurements_Tx, linspace, List.length_map, List.length_range]
  · rw [measurements_uxD, linspace, List.length_map, List.length_range]

/-- C10: both fabricated measurement sequences start at exactly `0` and
are monotone nondecreasing, in the small- and the large-displacement
configuration alike, with `uxD_max > 0` and `E_target > 0` in either
case. -/
theorem measurements_monotone : ∀ small : Bool,
    ((measurements_Tx small).getD 0 0 = 0 ∧
      (measurements_uxD small).getD 0 0 = 0 ∧
      0 < uxD_max small ∧ 0 < E_target) ∧
    ∀ i j : ℕ, i ≤ j → j ≤ NUM_OBSERVATIONS →
      (measurements_Tx small).getD i 0 ≤ (measurements_Tx small).getD j 0 ∧
      (measurements_uxD small).getD i 0 ≤ (measurements_uxD small).getD j 0 := by
  intro small
  constructor
  · cases small <;>
      norm_num [measurements_Tx_eval, measurements_uxD_eval, List.getD,
        uxD_max, E_target]
  intro i j hij hj
  have hj4 : j ≤ 4 := hj
  constructor <;>
    · cases small <;> interval_cases j <;> interval_cases i <;>
        norm_num [measurements_Tx_eval, measurements_uxD_eval, List.getD]

/-- C10 witness: instantiation in the small-displacement configuration at
indices 1 ≤ 3. -/
theorem measurements_monotone_witness :
    ((1 : ℕ) ≤ 3 ∧ (3 : ℕ) ≤ NUM_OBSERVATIONS) ∧
      (measurements_Tx true).getD 1 0 ≤ (measurements_Tx true).getD 3 0 :=
  ⟨by decide, ((measurements_monotone true).2 1 3 (by decide) (by decide)).1⟩

/-! ### Symbolic (UFL) expressions built by the script (lines 195-244)

The script never evaluates these expressions itself; it builds a symbolic
tree (via `dolfin` operators) and hands it to the external solver.  The
tree is embedded as a deep syntax type.  Atoms: the material `Constant`s
`E` and `nu` (line 197), numeric literals, the identity matrix, `grad(u)`,
the displacement field `u`, the two measurement `Expression`s `u_msr` and
`T_msr`, and the facet normal `N`. -/

inductive UFLExpr where
  | constE
  | constNu
  | lit (q : ℚ)
  | identity (d : ℕ)
  | gradU
  | fieldU
  | exprUmsr
  | exprTmsr
  | facetNormal
  | varOf (a : UFLExpr)
  | transpose (a : UFLExpr)
  | add (a b : UFLExpr)
  | sub (a b : UFLExpr)
  | mul (a b : UFLExpr)
  | div (a b : UFLExpr)
  | pow (a b : UFLExpr)
  | det (a : UFLExpr)
  | tr (a : UFLExpr)
  | ln (a : UFLExpr)
  | diff (a b : UFLExpr)
  | dot (a b : UFLExpr)
  | comp (a : UFLExpr) (i : ℕ)
  deriving DecidableEq

namespace Mat

/-- Line 200: `E, nu = material_parameters.values()`. -/
def E : UFLExpr := .constE

/-- Line 200. -/
def nu : UFLExpr := .constNu

/-- Line 202: `d = len(u)`, the displacement dimension; `u` lives in a
vector function space over the 3-D box mesh, so `d = 3`. -/
def d : ℕ := 3

/-- Line 204: `I = dolfin.Identity(d)`. -/
def I : UFLExpr := .identity d

/-- Line 205: `F = dolfin.variable(I + dolfin.grad(u))`. -/
def F : UFLExpr := .varOf (.add I .gradU)

/-- Line 207: `C = F.T*F` (right Cauchy-Green tensor). -/
def C : UFLExpr := .mul (.transpose F) F

/-- Line 208: `J = dolfin.det(F)`. -/
def J : UFLExpr := .det F

/-- Line 209: `I1 = dolfin.tr(C)`. -/
def I1 : UFLExpr := .tr C

/-- Line 212: `lm = E*nu/((1.0 + nu)*(1.0 - 2.0*nu))`. -/
def lm : UFLExpr :=
  .div (.mul E nu)
    (.mul (.add (.lit 1) nu) (.sub (.lit 1) (.mul (.lit 2) nu)))

/-- Line 213: `mu = E/(2.0 + 2.0*nu)`. -/
def mu : UFLExpr := .div E (.add (.lit 2) (.mul (.lit 2) nu))

/-- Line 216: `psi = (mu/2.0)*(I1 - d - 2.0*ln(J)) + (lm/2.0)*ln(J)**2`. -/
def psi : UFLExpr :=
  .add
    (.mul (.div mu (.lit 2))
      (.sub (.sub I1 (.lit (d : ℚ))) (.mul (.lit 2) (.ln J))))
    (.mul (.div lm (.lit 2)) (.pow (.ln J) (.lit 2)))

/-- Line 219: `pk1 = dolfin.diff(psi, F)`. -/
def pk1 : UFLExpr := .diff psi F

/-- Line 222: `N = dolfin.FacetNormal(mesh)`. -/
def N : UFLExpr := .facetNormal

/-- Line 223: `PN = dolfin.dot(pk1, N)`. -/
def PN : UFLExpr := .dot pk1 N

end Mat

/-- Line 235: `u_obs = u`. -/
def u_obs : UFLExpr := .fieldU

/-- Line 238: `T_obs = PN`. -/
def T_obs : UFLExpr := Mat.PN

/-- Lines 100-108: the measurement `Expression`s as symbolic atoms. -/
def u_msr : UFLExpr := .exprUmsr

/-- Line 104. -/
def T_msr : UFLExpr := .exprTmsr

/-- The integration measures of lines 159-168: `dx`, `ds`, and the two
subdomain boundary measures `ds_msr_T` and `ds_msr_u`. -/
inductive MeasTag where
  | dx
  | ds
  | ds_msr_T
  | ds_msr_u
  deriving DecidableEq

/-- A variational form: an integral of an integrand over a measure, or a
sum / `Constant`-multiple of forms.  `zero` is the integer `0` that
Python's builtin `sum` starts from. -/
inductive Form where
  | zero
  | integral (e : UFLExpr) (m : MeasTag)
  | add (a b : Form)
  | smul (c : ℚ) (a : Form)
  deriving DecidableEq

/-- Python's builtin `sum` over a list of forms: fold of `+` starting
from `0`. -/
def pysum (l : List Form) : Form := l.foldl .add .zero

/-- Linear evaluation of a form, given a valuation `ι` assigning a number
to each atomic integral. -/
def evalForm (ι : UFLExpr → MeasTag → ℚ) : Form → ℚ
  | .zero => 0
  | .integral e m => ι e m
  | .add a b => evalForm ι a + evalForm ι b
  | .smul c a => c * evalForm ι a

/-- Line 241:
`J_u = sum((u_obs[i]-u_msr[i])**2*ds_msr_u for i in using_subdims_u_msr)`. -/
def J_u : Form :=
  pysum (using_subdims_u_msr.map fun i =>
    Form.integral (.pow (.sub (.comp u_obs i) (.comp u_msr i)) (.lit 2))
      .ds_msr_u)

/-- Line 244: `C = [(T_obs[i]-T_msr[i])*ds_msr_T for i in using_subdims_T_msr]`
(the reaction-force misfit list; distinct from the tensor `Mat.C`). -/
def C : List Form :=
  using_subdims_T_msr.map fun i =>
    Form.integral (.sub (.comp T_obs i) (.comp T_msr i)) .ds_msr_T

/-- The result of the cost-formulation block (lines 246-265): the list
`constraint_multipliers` and the objects `Q` and `L` it binds. -/
structure CostFormulation where
  constraint_multipliers : List ℚ
  Q : Form
  L : Option Form
  deriving DecidableEq

/-- Line 258: `constraint_multipliers = [Constant(1e-9) for _ in
using_subdims_T_msr]` (built only in the `"constraint"` branch). -/
def constraint_multipliers_constraint : List ℚ :=
  using_subdims_T_msr.map fun _ => 1 / 1000000000

/-- Line 259:
`J_c = sum(mult_i*C_i for mult_i, C_i in zip(constraint_multipliers, C))`. -/
def J_c : Form :=
  pysum (List.zipWith Form.smul constraint_multipliers_constraint C)

/-- Lines 246-265: the `if/elif/else` block on
`FORCE_COST_FORMULATION_METHOD`; the `else` branch raises `ValueError`,
embedded as the `Except.error` case. -/
def selectCostFormulation (method : String) : Except String CostFormulation :=
  if method = "cost" then
    Except.ok (CostFormulation.mk [] J_u (some (C.getD 0 .zero)))
  else if method = "constraint" then
    Except.ok (CostFormulation.mk constraint_multipliers_constraint
      (Form.add J_u J_c) none)
  else
    Except.error "Parameter FORCE_COST_FORMULATION_METHOD"

/-- Whether the cost-formulation block raises `ValueError` for a given
configuration string. -/
def raisesValueError (method : String) : Bool :=
  match selectCostFormulation method with
  | .error _ => true
  | .ok _ => false

/-! ### Theorems about the symbolic constructions -/

/-- C1: the cost-formulation block raises `ValueError` exactly when the
configuration string is neither `"cost"` nor `"constraint"`; with
`"cost"` it completes with `Q = J_u`, `L = C[0]` and an empty
`constraint_multipliers` list, and with `"constraint"` it completes with
`Q = J_u + J_c` and `L = None`. -/
theorem cost_formulation_selection :
    (∀ s : String,
      raisesValueError s = true ↔ ¬(s = "cost" ∨ s = "constraint")) ∧
    selectCostFormulation "cost" =
      Except.ok (CostFormulation.mk [] J_u (some (C.getD 0 .zero))) ∧
    selectCostFormulation "constraint" =
      Except.ok (CostFormulation.mk constraint_multipliers_constraint
        (Form.add J_u J_c) none) := by
  refine ⟨?_, ?_, ?_⟩
  · intro s
    by_cases h1 : s = "cost" <;> by_cases h2 : s = "constraint" <;>
      simp [raisesValueError, selectCostFormulation, h1, h2]
  · simp [selectCostFormulation]
  · simp [selectCostFormulation]

/-- C4: the first Piola-Kirchhoff stress `pk1` is the derivative of the
strain-energy density `psi` with respect to the deformation-gradient
variable `F = I + grad(u)`, and the observed traction `T_obs` is the
contraction `pk1 . N` with the facet normal. -/
theorem pk1_energy_derivative_and_traction :
    Mat.pk1 = UFLExpr.diff Mat.psi Mat.F ∧
    Mat.F = UFLExpr.varOf (UFLExpr.add (UFLExpr.identity Mat.d) UFLExpr.gradU) ∧
    Mat.N = UFLExpr.facetNormal ∧
    T_obs = UFLExpr.dot Mat.pk1 Mat.N :=
  ⟨rfl, rfl, rfl, rfl⟩

/-- C5: the strain-energy density is the Neo-Hookean form
`psi = (mu/2)*(I1 - d - 2*ln J) + (lm/2)*(ln J)^2` with
`I1 = tr(F^T F)`, `J = det F`, `d = 3`, and the Lame parameters
`mu = E/(2 + 2*nu)` and `lm = E*nu/((1 + nu)*(1 - 2*nu))`. -/
theorem neo_hookean_energy_density :
    Mat.psi =
      UFLExpr.add
        (UFLExpr.mul (UFLExpr.div Mat.mu (UFLExpr.lit 2))
          (UFLExpr.sub (UFLExpr.sub Mat.I1 (UFLExpr.lit (Mat.d : ℚ)))
            (UFLExpr.mul (UFLExpr.lit 2) (UFLExpr.ln Mat.J))))
        (UFLExpr.mul (UFLExpr.div Mat.lm (UFLExpr.lit 2))
          (UFLExpr.pow (UFLExpr.ln Mat.J) (UFLExpr.lit 2))) ∧
    Mat.I1 = UFLExpr.tr (UFLExpr.mul (UFLExpr.transpose Mat.F) Mat.F) ∧
    Mat.J = UFLExpr.det Mat.F ∧
    Mat.d = 3 ∧
    Mat.mu =
      UFLExpr.div Mat.E
        (UFLExpr.add (UFLExpr.lit 2) (UFLExpr.mul (UFLExpr.lit 2) Mat.nu)) ∧
    Mat.lm =
      UFLExpr.div (UFLExpr.mul Mat.E Mat.nu)
        (UFLExpr.mul (UFLExpr.add (UFLExpr.lit 1) Mat.nu)
          (UFLExpr.sub (UFLExpr.lit 1) (UFLExpr.mul (UFLExpr.lit 2) Mat.nu))) :=
  ⟨rfl, rfl, rfl, rfl, rfl, rfl⟩

/-- C6: under any valuation of the atomic integrals, `J_u` evaluates to
the sum over the indices in `using_subdims_u_msr` of the boundary
integral of `(u_obs[i] - u_msr[i])^2` over the displacement-measurement
boundary `ds_msr_u`; and `C` is the list of boundary integrals of
`T_obs[i] - T_msr[i]` over `ds_msr_T` for the indices in
`using_subdims_T_msr`, i.e. the singleton at index 0. -/
theorem cost_functional_from_misfit :
    (∀ ι : UFLExpr → MeasTag → ℚ,
      evalForm ι J_u =
        (using_subdims_u_msr.map fun i =>
          ι (UFLExpr.pow
              (UFLExpr.sub (UFLExpr.comp u_obs i) (UFLExpr.comp u_msr i))
              (UFLExpr.lit 2))
            MeasTag.ds_msr_u).sum) ∧
    C = [Form.integral
          (UFLExpr.sub (UFLExpr.comp T_obs 0) (UFLExpr.comp T_msr 0))
          MeasTag.ds_msr_T] := by
  refine ⟨?_, rfl⟩
  intro ι
  simp [J_u, pysum, evalForm, using_subdims_u_msr]

/-! ### Mesh and Dirichlet boundary conditions (lines 120-192)

Points of the reference domain are triples of exact coordinates; the
`near(x, v)` tests of the `CompiledSubDomain` strings are modelled as
exact equalities. -/

/-- A point of the box domain. -/
abbrev Point : Type := ℚ × ℚ × ℚ

/-- Line 122: `nz = 10`. -/
def nz : ℕ := 10

/-- Line 123: `nx = max(int(nz*W/H), 1)` (Python `int` truncates; the
quotient is positive, so this is the floor). -/
def nx : ℕ := max (Int.toNat (Int.floor ((nz : ℚ) * W / H))) 1

/-- Line 124: `ny = max(int(nz*L/H), 1)`. -/
def ny : ℕ := max (Int.toNat (Int.floor ((nz : ℚ) * L / H))) 1

/-- The arguments of `dolfin.BoxMesh(Point(0,0,0), Point(W,L,H), nx, ny, nz)`
(line 126). -/
structure BoxMeshSpec where
  p0 : Point
  p1 : Point
  nx : ℕ
  ny : ℕ
  nz : ℕ
  deriving DecidableEq

/-- Line 126: the box mesh from `(0,0,0)` to `(W,L,H)`. -/
def mesh : BoxMeshSpec := BoxMeshSpec.mk (0, 0, 0) (W, L, H) nx ny nz

/-- Line 130: `'on_boundary && near(x[0], 0.0)'`. -/
def boundary_fix (on_boundary : Bool) (p : Point) : Prop :=
  on_boundary = true ∧ p.1 = 0

/-- Line 131: `'on_boundary && near(x[0], W)'`. -/
def boundary_msr (on_boundary : Bool) (p : Point) : Prop :=
  on_boundary = true ∧ p.1 = W

/-- Line 132: `'on_boundary && near(x[1], L)'`. -/
def boundary_dic (on_boundary : Bool) (p : Point) : Prop :=
  on_boundary = true ∧ p.2.1 = L

/-- Lines 134-135: the vertex `(0, 0, 0)`. -/
def fixed_vertex_000 (p : Point) : Prop :=
  p.1 = 0 ∧ p.2.1 = 0 ∧ p.2.2 = 0

/-- Lines 137-138: the vertex `(0, L, 0)`. -/
def fixed_vertex_010 (p : Point) : Prop :=
  p.1 = 0 ∧ p.2.1 = L ∧ p.2.2 = 0

/-- Line 148: `id_subdomain_fix = 1`. -/
def id_subdomain_fix : ℕ := 1

/-- Line 149: `id_subdomain_msr = 2`. -/
def id_subdomain_msr : ℕ := 2

/-- Line 150: `id_subdomains_dic = 3`. -/
def id_subdomains_dic : ℕ := 3

/-- Tags for the marked subdomains of the script. -/
inductive SubdomainTag where
  | fix
  | msr
  | dic
  | vertex000
  | vertex010
  deriving DecidableEq

/-- Lines 152-154: which subdomain is marked with which id in
`boundary_markers`. -/
def boundary_marking : List (SubdomainTag × ℕ) :=
  [(.fix, id_subdomain_fix), (.msr, id_subdomain_msr),
   (.dic, id_subdomains_dic)]

/-- Line 183: the function (sub)spaces `V` and `Vx, Vy, Vz = V.split()`. -/
inductive SubspaceSel where
  | V
  | Vx
  | Vy
  | Vz
  deriving DecidableEq

/-- Lines 185-186: the boundary values `Constant(0)`, `Constant((0,0,0))`
and the measurement expression `uxD_msr`. -/
inductive BCValue where
  | zero
  | zeros
  | uxD_msr
  deriving DecidableEq

/-- Where a `DirichletBC` applies: a marker id in `boundary_markers`, or a
pointwise subdomain. -/
inductive BCRegion where
  | markers (id : ℕ)
  | pointwise (t : SubdomainTag)
  deriving DecidableEq

/-- The arguments of one `DirichletBC(...)` call. -/
structure DirichletBCSpec where
  space : SubspaceSel
  value : BCValue
  region : BCRegion
  deriving DecidableEq

/-- Lines 181-192: the list `bcs` of Dirichlet boundary conditions, in
the order the script appends them. -/
def bcs : List DirichletBCSpec :=
  [DirichletBCSpec.mk .Vx .zero (.markers id_subdomain_fix),
   DirichletBCSpec.mk .Vx .uxD_msr (.markers id_subdomain_msr),
   DirichletBCSpec.mk .V .zeros (.pointwise .vertex000),
   DirichletBCSpec.mk .Vz .zero (.pointwise .vertex010)]

/-- C7: the mesh is a box from `(0,0,0)` to `(W,L,H) = (2,1,1)`; the
Dirichlet conditions are exactly: zero x-displacement on the marker of the
face `x = 0`, imposed x-displacement `uxD_msr` on the marker of the face
`x = W`, all components zero at the vertex `(0,0,0)` and zero
z-displacement at the vertex `(0,L,0)`; and the marked subdomains are the
faces `x = 0` (id 1), `x = W` (id 2) and the vertex predicates as
claimed. -/
theorem box_mesh_and_dirichlet_bcs :
    mesh = BoxMeshSpec.mk (0, 0, 0) (W, L, H) 20 10 10 ∧
    (W, L, H) = ((2 : ℚ), (1 : ℚ), (1 : ℚ)) ∧
    bcs = [DirichletBCSpec.mk .Vx .zero (.markers id_subdomain_fix),
           DirichletBCSpec.mk .Vx .uxD_msr (.markers id_subdomain_msr),
           DirichletBCSpec.mk .V .zeros (.pointwise .vertex000),
           DirichletBCSpec.mk .Vz .zero (.pointwise .vertex010)] ∧
    boundary_marking = [(.fix, 1), (.msr, 2), (.dic, 3)] ∧
    (∀ (b : Bool) (p : Point), boundary_fix b p ↔ (b = true ∧ p.1 = 0)) ∧
    (∀ (b : Bool) (p : Point), boundary_msr b p ↔ (b = true ∧ p.1 = W)) ∧
    (∀ p : Point, fixed_vertex_000 p ↔ p = ((0 : ℚ), (0 : ℚ), (0 : ℚ))) ∧
    (∀ p : Point, fixed_vertex_010 p ↔ (p.1 = 0 ∧ p.2.1 = L ∧ p.2.2 = 0)) := by
  refine ⟨?_, by norm_num [W, L, H], rfl, rfl,
    fun b p => Iff.rfl, fun b p => Iff.rfl, ?_, fun p => Iff.rfl⟩
  · simp only [mesh, BoxMeshSpec.mk.injEq, nx, ny, nz, W, L, H]
    norm_num
    decide
  · intro p
    simp [fixed_vertex_000, Prod.ext_iff]

/-! ### The script's use of the `invsolve` API (lines 274-321, 456-457)

The attribute and method accesses the script makes on the `invsolve`
module and on the two inverse-solver objects, in source order:
`invsolve.InverseSolverBasic(...)` (line 274),
`invsolve.InverseSolver(...)` (line 277),
`.set_parameters_inverse_solver(...)` (line 280),
`.fit_model_foreach_time()` (line 291), `.fit_model_forall_times()`
(line 294), `.assess_model_cost(...)` (line 297),
`.assess_misfit_displacements(...)` (line 303),
`.assess_misfit_reaction_forces(...)` (line 307), `.observe_f_obs(...)`
(line 313), `.observe_f_msr(...)` (line 314), `.view_cumsum_D2JDm2()`
(line 321), the attribute `.observation_times` (line 456) and
`.observe_u(...)` (line 457). -/

def script_invsolve_accesses : List String :=
  ["InverseSolverBasic", "InverseSolver", "set_parameters_inverse_solver",
   "fit_model_foreach_time", "fit_model_forall_times", "assess_model_cost",
   "assess_misfit_displacements", "assess_misfit_reaction_forces",
   "observe_f_obs", "observe_f_msr", "view_cumsum_D2JDm2",
   "observation_times", "observe_u"]

/-- The inverse-solver API surface named by the specification: the two
constructors and eight methods. -/
def claimed_invsolve_api : List String :=
  ["InverseSolverBasic", "InverseSolver", "fit_model_foreach_time",
   "fit_model_forall_times", "assess_model_cost",
   "assess_misfit_displacements", "assess_misfit_reaction_forces",
   "observe_f_obs", "observe_f_msr", "view_cumsum_D2JDm2"]

/-- The claimed API surface extended by the three further accesses the
script actually makes: `set_parameters_inverse_solver`, the
`observation_times` attribute, and `observe_u`. -/
def amended_invsolve_api : List String :=
  claimed_invsolve_api ++
    ["set_parameters_inverse_solver", "observation_times", "observe_u"]

/-- Line 274-275: the arguments of the `InverseSolverBasic` constructor
call, in order. -/
def InverseSolverBasic_args : List String :=
  ["Q", "L", "F", "u", "bcs", "model_parameters", "observation_times",
   "measurement_setter"]

/-- C2, counterexample: the script calls `inverse_solver.observe_u`
(line 457), a method of the inverse-solver object that is not among the
constructors and methods the claim lists, so the listed surface is not
exhaustive. -/
theorem invsolve_api_claim_counterexample :
    "observe_u" ∈ script_invsolve_accesses ∧
      "observe_u" ∉ claimed_invsolve_api := by
  exact ⟨by decide, by decide⟩

/-- C2, amended: the script's accesses to the `invsolve` API are exactly
the two constructors and eight methods the claim lists together with
`set_parameters_inverse_solver`, the `observation_times` attribute and
`observe_u`; and the `InverseSolverBasic` constructor receives
`(Q, L, F, u, bcs, model_parameters, observation_times,
measurement_setter)` in exactly that order. -/
theorem invsolve_api_surface :
    script_invsolve_accesses.all
      (fun s => amended_invsolve_api.contains s) = true ∧
    amended_invsolve_api.all
      (fun s => script_invsolve_accesses.contains s) = true ∧
    InverseSolverBasic_args =
      ["Q", "L", "F", "u", "bcs", "model_parameters", "observation_times",
       "measurement_setter"] := by
  exact ⟨by decide, by decide, rfl⟩

end BasicExample1
